import Mathlib

/-!
Shallow embedding of `src/native/tor.rs` from `async-wsocket`: the
process-wide Tor client singleton (`TOR_CLIENT` plus `get_tor_client`), its
initializer (`init_tor_client`), the outbound connector (`connect`) and the
hidden-service launcher (`launch_onion_service`).

The external `arti` crates are not part of this repository, so their calls
are modelled abstractly by a `LibOracle` record: the bootstrap outcome
(together with a trace of disk/socket side effects), config-builder
validation, stream opening, onion-service launch and reverse-proxy request
handling are all oracle fields. The small validating constructors whose
behaviour the glue code relies on are modelled concretely from their
documented behaviour (`ProxyPattern.one_port` rejects port zero,
`HsNickname.new` rejects empty or non-slug strings).

State is passed explicitly: the `OnceCell` slot `TOR_CLIENT` becomes an
`Option TorClient` threaded through every operation, and the
`get_or_try_init` semantics (the value is cached only on success, a failed
initializer leaves the cell unset) is embedded in `get_tor_client`.
-/

/-- A filesystem path, as its list of components; `PathBuf::join`
appends one component. -/
abbrev FsPath := List String

/-- Rust `PathBuf::join` with a single normal component. -/
def FsPath.join (p : FsPath) (s : String) : FsPath := p ++ [s]

/-- `std::net::SocketAddr`, abstracted to host and port. -/
structure SocketAddr where
  ip : String
  port : Nat
  deriving DecidableEq

/-- `arti_client::Error`, kept abstract as a message payload. -/
structure ArtiError where
  msg : String
  deriving DecidableEq

/-- `arti_client::config::ConfigBuildError`, kept abstract. -/
structure ConfigBuildError where
  msg : String
  deriving DecidableEq

/-- `tor_hsrproxy::config::ProxyConfigError`, kept abstract. -/
structure ProxyConfigError where
  msg : String
  deriving DecidableEq

/-- `tor_hsservice::InvalidNickname`, kept abstract. -/
structure InvalidNickname where
  msg : String
  deriving DecidableEq

/-- The error type of `tor_hsrproxy`'s `handle_requests`, kept abstract. -/
structure ProxyError where
  msg : String
  deriving DecidableEq

/-- `arti_client::DataStream`, abstracted to an identity token. -/
structure DataStream where
  id : Nat
  deriving DecidableEq

/-- `tor_hsservice::RunningOnionService`, abstracted to an identity token. -/
structure RunningOnionService where
  id : Nat
  deriving DecidableEq

/-- The stream of incoming rendezvous requests returned by
`launch_onion_service` on the library side, abstracted to a token. -/
structure StreamSrc where
  id : Nat
  deriving DecidableEq

/-- `tor_hsservice::HsNickname`: a validated nickname. -/
structure HsNickname where
  nick : String
  deriving DecidableEq

/-- The error enum of `src/native/tor.rs` (lines 26-36): each variant is a
transparent carrier of one library error. -/
inductive Error where
  | ArtiClient (e : ArtiError)
  | ConfigBuilder (e : ConfigBuildError)
  | ProxyConfig (e : ProxyConfigError)
  | InvalidNickname (e : InvalidNickname)
  deriving DecidableEq

/-- Observable side effects of library calls: file creation/writes under a
path, and opening network sockets.  Emitted by the bootstrap oracle. -/
inductive Effect where
  | diskWrite (path : FsPath)
  | socketOpen
  deriving DecidableEq

/-- `arti_client::config::TorClientConfigBuilder`, restricted to the three
knobs `init_tor_client` touches: the onion-address filter
(`address_filter().allow_onion_addrs`) and the storage override
(`storage().cache_dir(..).state_dir(..)`).  `none` for a directory means
the library default is left unchanged. -/
structure TorClientConfigBuilder where
  allow_onion_addrs : Bool
  cache_dir : Option FsPath
  state_dir : Option FsPath
  deriving DecidableEq

/-- `TorClientConfigBuilder::default()`: the onion-address filter is off and
both storage directories are the library defaults. -/
def TorClientConfigBuilder.default : TorClientConfigBuilder :=
  { allow_onion_addrs := false, cache_dir := none, state_dir := none }

/-- The built `TorClientConfig`, carrying the same three observable knobs. -/
structure TorClientConfig where
  allow_onion_addrs : Bool
  cache_dir : Option FsPath
  state_dir : Option FsPath
  deriving DecidableEq

/-- Modelled from the library: a successful `build()` of a
`TorClientConfigBuilder` yields a config with exactly the builder's
fields. -/
def builderToConfig (b : TorClientConfigBuilder) : TorClientConfig :=
  { allow_onion_addrs := b.allow_onion_addrs
    cache_dir := b.cache_dir
    state_dir := b.state_dir }

/-- `arti_client::TorClient`: an identity token for the bootstrapped client
plus the configuration it was created with. -/
structure TorClient where
  id : Nat
  config : TorClientConfig
  deriving DecidableEq

/-- `tor_hsrproxy::config::ProxyPattern`, restricted to the `one_port` form
used by this module. -/
structure ProxyPattern where
  port : Nat
  deriving DecidableEq

/-- Modelled from the library: `ProxyPattern::one_port(port)` matches
exactly the given virtual port and fails on port zero. -/
def ProxyPattern.one_port (port : Nat) : Except ProxyConfigError ProxyPattern :=
  if port = 0 then Except.error ⟨"port zero"⟩ else Except.ok ⟨port⟩

/-- Modelled from the library: whether a `one_port` pattern matches a
virtual port. -/
def ProxyPattern.matchesPort (pat : ProxyPattern) (q : Nat) : Bool :=
  q == pat.port

/-- `tor_hsrproxy::config::Encapsulation`; `default()` is the simple
(no-encapsulation) variant. -/
inductive Encapsulation where
  | simple
  deriving DecidableEq

/-- `Encapsulation::default()`. -/
def Encapsulation.default : Encapsulation := Encapsulation.simple

/-- `tor_hsrproxy::config::TargetAddr`, restricted to the `Inet` form used
here. -/
inductive TargetAddr where
  | Inet (addr : SocketAddr)
  deriving DecidableEq

/-- `tor_hsrproxy::config::ProxyAction`, restricted to the `Forward` form
used here. -/
inductive ProxyAction where
  | Forward (enc : Encapsulation) (target : TargetAddr)
  deriving DecidableEq

/-- `tor_hsrproxy::config::ProxyRule`: a pattern paired with an action. -/
structure ProxyRule where
  pattern : ProxyPattern
  action : ProxyAction
  deriving DecidableEq

/-- `ProxyRule::new`. -/
def ProxyRule.new (pat : ProxyPattern) (act : ProxyAction) : ProxyRule :=
  ⟨pat, act⟩

/-- The built reverse-proxy configuration: its list of rules
(`set_proxy_ports`). -/
structure ProxyConfig where
  proxy_ports : List ProxyRule
  deriving DecidableEq

/-- `tor_hsrproxy::OnionServiceReverseProxy`, carrying the config it was
built from. -/
structure OnionServiceReverseProxy where
  config : ProxyConfig
  deriving DecidableEq

/-- The built `OnionServiceConfig`: `launch_onion_service` parameterizes it
by the validated nickname only, all other fields default. -/
structure OnionServiceConfig where
  nickname : HsNickname
  deriving DecidableEq

/-- Allowed characters of a hidden-service nickname slug. -/
def nicknameCharOk (ch : Char) : Bool :=
  ch.isAlphanum || ch == '_' || ch == '-'

/-- Modelled from the library's documented slug validation: a nickname is
valid when it is nonempty, of bounded length, and made only of ASCII
alphanumerics, underscore and hyphen.  In particular the empty string and
any string containing a space are invalid. -/
def validNickname (s : String) : Bool :=
  !s.data.isEmpty && Nat.ble s.data.length 32 && s.data.all nicknameCharOk

/-- `HsNickname::new`: validate a caller-supplied nickname string. -/
def HsNickname.new (s : String) : Except InvalidNickname HsNickname :=
  if validNickname s then Except.ok ⟨s⟩ else Except.error ⟨"invalid nickname"⟩

/-- Abstract behaviour of the external library calls whose outcome the glue
code cannot determine: config-build validation, client bootstrap (with its
trace of side effects), reverse-proxy config validation, onion-service
config validation, service launch, stream opening, and the reverse-proxy
worker body.  `none` from a validation field means success. -/
structure LibOracle where
  build_check : TorClientConfigBuilder → Option ConfigBuildError
  bootstrap : TorClientConfig → List Effect × Except ArtiError Nat
  proxy_build_check : List ProxyRule → Option ProxyConfigError
  onion_build_check : HsNickname → Option ConfigBuildError
  launch_svc : Nat → OnionServiceConfig → Except ArtiError (RunningOnionService × StreamSrc)
  connectStream : Nat → String → Nat → Except ArtiError DataStream

/-- The config-builder part of `init_tor_client` (tor.rs lines 78-94):
start from the default builder, enable onion addresses, and if a custom
path is given install `path/cache` and `path/state` as the cache and state
directories. -/
def build_config (custom_path : Option FsPath) : TorClientConfigBuilder :=
  let config := { TorClientConfigBuilder.default with allow_onion_addrs := true }
  match custom_path with
  | some path =>
      { config with
          cache_dir := some (FsPath.join path "cache")
          state_dir := some (FsPath.join path "state") }
  | none => config

/-- `init_tor_client` (tor.rs lines 75-101): build the config (a build
failure becomes `Error.ConfigBuilder`), then create and bootstrap the
client (a failure becomes `Error.ArtiClient`).  The bootstrap's side
effects are returned alongside the outcome. -/
def init_tor_client (L : LibOracle) (custom_path : Option FsPath) :
    List Effect × Except Error TorClient :=
  match L.build_check (build_config custom_path) with
  | some e => ([], Except.error (Error.ConfigBuilder e))
  | none =>
    match L.bootstrap (builderToConfig (build_config custom_path)) with
    | (effs, Except.error e) => (effs, Except.error (Error.ArtiClient e))
    | (effs, Except.ok i) =>
      (effs, Except.ok ⟨i, builderToConfig (build_config custom_path)⟩)

/-- `get_tor_client` (tor.rs lines 105-111):
`TOR_CLIENT.get_or_try_init(|| init_tor_client(custom_path))`.  If the slot
is filled, return the stored client with no side effects; otherwise run the
initializer, caching the client only on success.  Returns the call's
result, the new slot contents, and the side effects performed. -/
def get_tor_client (L : LibOracle) (custom_path : Option FsPath)
    (slot : Option TorClient) :
    Except Error TorClient × Option TorClient × List Effect :=
  match slot with
  | some c => (Except.ok c, some c, [])
  | none =>
    match init_tor_client L custom_path with
    | (effs, Except.ok c) => (Except.ok c, some c, effs)
    | (effs, Except.error e) => (Except.error e, none, effs)

/-- `connect` (tor.rs lines 114-121): acquire the singleton via
`get_tor_client`, then ask the library to open a stream to
`(domain, port)`; a library failure is propagated unchanged as
`Error.ArtiClient`. -/
def connect (L : LibOracle) (domain : String) (port : Nat)
    (custom_path : Option FsPath) (slot : Option TorClient) :
    Except Error DataStream × Option TorClient × List Effect :=
  match get_tor_client L custom_path slot with
  | (Except.error e, slot', effs) => (Except.error e, slot', effs)
  | (Except.ok c, slot', effs) =>
    match L.connectStream c.id domain port with
    | Except.ok s => (Except.ok s, slot', effs)
    | Except.error e => (Except.error (Error.ArtiClient e), slot', effs)

/-- The proxy-configuration step of `launch_onion_service` (tor.rs lines
137-142): build the `one_port` pattern, the forward action with default
encapsulation to the Internet target, set the single rule, build the
config, and wrap it in an `OnionServiceReverseProxy`. -/
def build_proxy (L : LibOracle) (addr : SocketAddr) (port : Nat) :
    Except ProxyConfigError OnionServiceReverseProxy :=
  match ProxyPattern.one_port port with
  | Except.error e => Except.error e
  | Except.ok pattern =>
    match L.proxy_build_check
        [ProxyRule.new pattern
          (ProxyAction.Forward Encapsulation.default (TargetAddr.Inet addr))] with
    | some e => Except.error e
    | none =>
      Except.ok ⟨⟨[ProxyRule.new pattern
        (ProxyAction.Forward Encapsulation.default (TargetAddr.Inet addr))]⟩⟩

/-- The onion-service config step (tor.rs lines 145-147):
`OnionServiceConfigBuilder::default().nickname(nick).build()`, all other
fields default. -/
def onion_service_config (L : LibOracle) (nick : HsNickname) :
    Except ConfigBuildError OnionServiceConfig :=
  match L.onion_build_check nick with
  | some e => Except.error e
  | none => Except.ok ⟨nick⟩

/-- The fallible pipeline of `launch_onion_service` (tor.rs lines 133-149),
in source order: acquire the singleton, build the reverse-proxy config
(`Error.ProxyConfig` on failure), validate the nickname
(`Error.InvalidNickname` on failure), build the onion-service config
(`Error.ConfigBuilder` on failure), launch the service (`Error.ArtiClient`
on failure).  Returns the call's result, the new slot and the side
effects, together with the data the spawned worker closure captures
(the proxy, the nickname and the incoming-request stream) when the launch
succeeded. -/
def launch_stages (L : LibOracle) (nickname : String) (addr : SocketAddr)
    (port : Nat) (custom_path : Option FsPath) (slot : Option TorClient) :
    (Except Error RunningOnionService × Option TorClient × List Effect) ×
      Option (OnionServiceReverseProxy × HsNickname × StreamSrc) :=
  match get_tor_client L custom_path slot with
  | (Except.error e, slot', effs) => ((Except.error e, slot', effs), none)
  | (Except.ok client, slot', effs) =>
    match build_proxy L addr port with
    | Except.error e => ((Except.error (Error.ProxyConfig e), slot', effs), none)
    | Except.ok proxy =>
      match HsNickname.new nickname with
      | Except.error e => ((Except.error (Error.InvalidNickname e), slot', effs), none)
      | Except.ok nick =>
        match onion_service_config L nick with
        | Except.error e => ((Except.error (Error.ConfigBuilder e), slot', effs), none)
        | Except.ok ocfg =>
          match L.launch_svc client.id ocfg with
          | Except.error e => ((Except.error (Error.ArtiClient e), slot', effs), none)
          | Except.ok (service, stream) =>
            ((Except.ok service, slot', effs), some (proxy, nick, stream))

deriving instance DecidableEq for Except

/-- Everything a `launch_onion_service` call produces: the value returned
to the caller (`result`), the singleton slot afterwards, the side effects
performed, and — when a worker task was spawned — the outcome of the
`proxy.handle_requests(..)` future that the detached task will `unwrap`. -/
structure LaunchOut where
  result : Except Error RunningOnionService
  slot : Option TorClient
  effects : List Effect
  worker : Option (Except ProxyError Unit)
  deriving DecidableEq

/-- The reverse-proxy worker body of `launch_onion_service` (tor.rs lines
152-158), modelled as an oracle: the outcome of
`proxy.handle_requests(runtime, nickname, stream)`. -/
def WorkerOracle : Type :=
  OnionServiceReverseProxy → HsNickname → StreamSrc → Except ProxyError Unit

/-- `launch_onion_service` (tor.rs lines 124-161): run the fallible
pipeline; on success also spawn the detached worker, whose
`handle_requests` outcome is recorded in `worker`. -/
def launch_onion_service (L : LibOracle) (W : WorkerOracle) (nickname : String)
    (addr : SocketAddr) (port : Nat) (custom_path : Option FsPath)
    (slot : Option TorClient) : LaunchOut :=
  match launch_stages L nickname addr port custom_path slot with
  | ((r, slot', effs), none) => ⟨r, slot', effs, none⟩
  | ((r, slot', effs), some (proxy, nick, stream)) =>
    ⟨r, slot', effs, some (W proxy nick stream)⟩

/-- How the detached task ends (tor.rs lines 153-158): it `unwrap`s the
worker's result, so an error panics the task. -/
inductive TaskOutcome where
  | finished
  | panicked
  deriving DecidableEq

/-- The body of the spawned task: `.unwrap()` on the worker's result. -/
def worker_task : Except ProxyError Unit → TaskOutcome
  | Except.ok _ => TaskOutcome.finished
  | Except.error _ => TaskOutcome.panicked

/-- Whether a call result is a success. -/
def stepOk : Except Error TorClient → Bool
  | Except.ok _ => true
  | Except.error _ => false

/-- Outcome of a sequence of `get_tor_client` calls: the list of per-call
results, the final slot contents, and how many times the initializer ran
to a successful completion. -/
structure RunOut where
  results : List (Except Error TorClient)
  slot : Option TorClient
  inits : Nat
  deriving DecidableEq

/-- Run a sequence of `get_tor_client` calls against the process-wide
slot.  Each list entry carries its own oracle (the library's behaviour may
differ between attempts) and `custom_path` argument.  The `OnceCell` runs
initializers mutually exclusively, so an interleaved history is a sequence
of atomic `get_or_try_init` steps. -/
def runAcquires : List (LibOracle × Option FsPath) → Option TorClient → RunOut
  | [], slot => ⟨[], slot, 0⟩
  | (L, p) :: rest, slot =>
    let s := get_tor_client L p slot
    let out := runAcquires rest s.2.1
    ⟨s.1 :: out.results, out.slot,
      (if slot.isNone && stepOk s.1 then 1 else 0) + out.inits⟩

/-- A sample library behaviour: every validation passes, the bootstrap
succeeds with client identity 1 after creating files under the state
directory, and later library calls succeed. -/
def diskOracle : LibOracle where
  build_check := fun _ => none
  bootstrap := fun _ => ([Effect.diskWrite ["state", "keys"]], Except.ok 1)
  proxy_build_check := fun _ => none
  onion_build_check := fun _ => none
  launch_svc := fun _ _ => Except.ok (⟨5⟩, ⟨6⟩)
  connectStream := fun _ _ _ => Except.ok ⟨7⟩

/-- A sample library behaviour whose bootstrap fails. -/
def failOracle : LibOracle :=
  { diskOracle with bootstrap := fun _ => ([], Except.error ⟨"bootstrap failed"⟩) }

/-- A sample library behaviour whose stream opening fails. -/
def connFailOracle : LibOracle :=
  { diskOracle with connectStream := fun _ _ _ => Except.error ⟨"connect failed"⟩ }

/-- A sample worker behaviour that finishes cleanly. -/
def okWorker : WorkerOracle := fun _ _ _ => Except.ok ()

/-- The client `diskOracle`'s bootstrap produces under the default config. -/
def client1 : TorClient := ⟨1, ⟨true, none, none⟩⟩

/-- A sample local target address. -/
def addr0 : SocketAddr := ⟨"127.0.0.1", 1⟩
/-- The reverse proxy `build_proxy` constructs for `addr0` and port 80. -/
def sampleProxy : OnionServiceReverseProxy :=
  ⟨⟨[ProxyRule.new ⟨80⟩
      (ProxyAction.Forward Encapsulation.default (TargetAddr.Inet addr0))]⟩⟩

/-- Modelled from the spec: the library's outbound address filter rejects
`.onion` hostnames exactly when `allow_onion_addrs` is false; enabling
onion addresses makes the filter accept them. -/
def addressFiltered (cfg : TorClientConfig) (domain : String) : Bool :=
  domain.endsWith ".onion" && !cfg.allow_onion_addrs

/-- A successfully initialized client carries exactly the configuration
built by `build_config`. -/
theorem init_client_config (L : LibOracle) (p : Option FsPath)
    (effs : List Effect) (c : TorClient)
    (h : init_tor_client L p = (effs, Except.ok c)) :
    c.config = builderToConfig (build_config p) := by
  unfold init_tor_client at h
  rcases hb : L.build_check (build_config p) with _ | e
  · rw [hb] at h
    rcases hs : L.bootstrap (builderToConfig (build_config p)) with ⟨effs2, r⟩
    rw [hs] at h
    cases r with
    | error e => simp at h
    | ok i =>
      simp only [Prod.mk.injEq, Except.ok.injEq] at h
      rw [← h.2]
  · rw [hb] at h
    simp at h

/-- C5: When a custom base path `B` is supplied to the initializer, the
client configuration's cache directory is set to exactly `B/cache` and its
state directory to exactly `B/state` (the literal names appended to `B`);
when no custom path is supplied, the library-default storage locations are
left unchanged. -/
theorem custom_path_storage_dirs (B : FsPath) :
    (builderToConfig (build_config (some B))).cache_dir
        = some (FsPath.join B "cache") ∧
    (builderToConfig (build_config (some B))).state_dir
        = some (FsPath.join B "state") ∧
    (builderToConfig (build_config none)).cache_dir
        = TorClientConfigBuilder.default.cache_dir ∧
    (builderToConfig (build_config none)).state_dir
        = TorClientConfigBuilder.default.state_dir :=
  ⟨rfl, rfl, rfl, rfl⟩

/-- C7: The client configuration used by the initializer starts from
library defaults and sets the outbound address filter to permit
hidden-service names, so a connect to an onion address is never rejected
by the address filter of the default configuration. -/
theorem onion_addrs_enabled (L : LibOracle) (p : Option FsPath)
    (effs : List Effect) (c : TorClient)
    (h : init_tor_client L p = (effs, Except.ok c)) :
    c.config.allow_onion_addrs = true ∧
    addressFiltered c.config "x.onion" = false := by
  have hc := init_client_config L p effs c h
  have h1 : c.config.allow_onion_addrs = true := by
    rw [hc]
    cases p <;> rfl
  exact ⟨h1, by simp [addressFiltered, h1]⟩

/-- Closed instance of `onion_addrs_enabled` at a concrete oracle. -/
theorem onion_addrs_enabled_witness :
    client1.config.allow_onion_addrs = true ∧
    addressFiltered client1.config "x.onion" = false :=
  onion_addrs_enabled diskOracle none [Effect.diskWrite ["state", "keys"]]
    client1 rfl

/-- C3: If the first initialization attempt fails, the process-wide slot
remains uninitialized (the error is returned but no client is stored), so
a subsequent acquire call runs the initializer again and may succeed. -/
theorem failed_init_leaves_slot_empty (L1 L2 : LibOracle)
    (p1 p2 : Option FsPath) (e : Error) (effs1 effs2 : List Effect)
    (c : TorClient)
    (h1 : init_tor_client L1 p1 = (effs1, Except.error e))
    (h2 : init_tor_client L2 p2 = (effs2, Except.ok c)) :
    get_tor_client L1 p1 none = (Except.error e, none, effs1) ∧
    get_tor_client L2 p2 (get_tor_client L1 p1 none).2.1
      = (Except.ok c, some c, effs2) := by
  have hg1 : get_tor_client L1 p1 none = (Except.error e, none, effs1) := by
    simp [get_tor_client, h1]
  refine ⟨hg1, ?_⟩
  rw [hg1]
  simp [get_tor_client, h2]

/-- Closed instance of `failed_init_leaves_slot_empty` at concrete
oracles: a failing bootstrap then a succeeding one. -/
theorem failed_init_leaves_slot_empty_witness :
    get_tor_client failOracle none none
      = (Except.error (Error.ArtiClient ⟨"bootstrap failed"⟩), none, []) ∧
    get_tor_client diskOracle none (get_tor_client failOracle none none).2.1
      = (Except.ok client1, some client1, [Effect.diskWrite ["state", "keys"]]) :=
  failed_init_leaves_slot_empty failOracle diskOracle none none
    (Error.ArtiClient ⟨"bootstrap failed"⟩) [] [Effect.diskWrite ["state", "keys"]]
    client1 rfl rfl

/-- C4: Once the singleton has been successfully initialized, the
custom-path argument of every later acquire, connect or launch call is
ignored: the call returns the originally stored client regardless of which
path is passed, and the new path has no effect on the result. -/
theorem custom_path_ignored_after_init (L : LibOracle) (W : WorkerOracle)
    (c : TorClient) (p p' : Option FsPath) (d n : String) (pt vp : Nat)
    (a : SocketAddr) :
    get_tor_client L p (some c) = (Except.ok c, some c, []) ∧
    connect L d pt p (some c) = connect L d pt p' (some c) ∧
    launch_onion_service L W n a vp p (some c)
      = launch_onion_service L W n a vp p' (some c) :=
  ⟨rfl, rfl, rfl⟩

/-- C8: `connect` first acquires the singleton and then asks the library to
open a stream to `(domain, port)`; on success the library's stream object
is returned, a library failure is propagated unchanged as an `ArtiClient`
error, and an acquisition failure is returned without opening a stream. -/
theorem connect_propagates_library_result (L : LibOracle) (c : TorClient)
    (d : String) (pt : Nat) (p : Option FsPath) (s : DataStream)
    (e : ArtiError) (err : Error) (effs : List Effect) :
    (L.connectStream c.id d pt = Except.ok s →
      connect L d pt p (some c) = (Except.ok s, some c, [])) ∧
    (L.connectStream c.id d pt = Except.error e →
      connect L d pt p (some c)
        = (Except.error (Error.ArtiClient e), some c, [])) ∧
    (init_tor_client L p = (effs, Except.error err) →
      connect L d pt p none = (Except.error err, none, effs)) := by
  refine ⟨fun h => ?_, fun h => ?_, fun h => ?_⟩ <;>
    simp [connect, get_tor_client, h]

/-- Closed instance of `connect_propagates_library_result` at concrete
oracles: a successful stream, a failing stream, a failing bootstrap. -/
theorem connect_propagates_library_result_witness :
    connect diskOracle "example.com" 80 none (some client1)
      = (Except.ok ⟨7⟩, some client1, []) ∧
    connect connFailOracle "example.com" 80 none (some client1)
      = (Except.error (Error.ArtiClient ⟨"connect failed"⟩), some client1, []) ∧
    connect failOracle "example.com" 80 none none
      = (Except.error (Error.ArtiClient ⟨"bootstrap failed"⟩), none, []) :=
  ⟨(connect_propagates_library_result diskOracle client1 "example.com" 80 none
      ⟨7⟩ ⟨""⟩ (Error.ArtiClient ⟨""⟩) []).1 rfl,
   (connect_propagates_library_result connFailOracle client1 "example.com" 80
      none ⟨7⟩ ⟨"connect failed"⟩ (Error.ArtiClient ⟨""⟩) []).2.1 rfl,
   (connect_propagates_library_result failOracle client1 "example.com" 80 none
      ⟨7⟩ ⟨""⟩ (Error.ArtiClient ⟨"bootstrap failed"⟩) []).2.2 rfl⟩

/-- Once the slot is filled with `c`, every later acquire returns `c`
without running the initializer, and the slot never changes. -/
theorem runAcquires_ready (cs : List (LibOracle × Option FsPath))
    (c : TorClient) :
    runAcquires cs (some c)
      = ⟨List.replicate cs.length (Except.ok c), some c, 0⟩ := by
  induction cs with
  | nil => rfl
  | cons hd tl ih =>
    obtain ⟨L, p⟩ := hd
    simp [runAcquires, get_tor_client, ih, List.replicate, stepOk]

/-- C1: For any sequence of interleaved acquire calls (modelled as atomic
`get_or_try_init` steps, each with its own library behaviour and custom
path), the initializer runs successfully at most once, and every call that
returns success returns the same client instance stored in the
process-wide slot. -/
theorem get_tor_client_init_at_most_once
    (cs : List (LibOracle × Option FsPath)) :
    (runAcquires cs none).inits ≤ 1 ∧
    ∀ r ∈ (runAcquires cs none).results, ∀ c, r = Except.ok c →
      (runAcquires cs none).slot = some c := by
  induction cs with
  | nil =>
    refine ⟨Nat.zero_le 1, ?_⟩
    intro r hr
    simp [runAcquires] at hr
  | cons hd tl ih =>
    obtain ⟨L, p⟩ := hd
    rcases hi : init_tor_client L p with ⟨effs, r0⟩
    cases r0 with
    | error e =>
      have hg : get_tor_client L p none = (Except.error e, none, effs) := by
        simp [get_tor_client, hi]
      constructor
      · simpa [runAcquires, hg, stepOk] using ih.1
      · intro r hr c hc
        simp [runAcquires, hg] at hr ⊢
        rcases hr with hr | hr
        · rw [hr] at hc
          cases hc
        · exact ih.2 r hr c hc
    | ok c0 =>
      have hg : get_tor_client L p none = (Except.ok c0, some c0, effs) := by
        simp [get_tor_client, hi]
      have hready := runAcquires_ready tl c0
      constructor
      · simp [runAcquires, hg, stepOk, hready]
      · intro r hr c hc
        simp [runAcquires, hg, hready] at hr ⊢
        have hr0 : r = Except.ok c0 := by
          rcases hr with hr | hr
          · exact hr
          · exact hr.2
        rw [hr0] at hc
        injection hc with hc

/-- Closed instance of `get_tor_client_init_at_most_once` on a one-call
history with a succeeding bootstrap. -/
theorem get_tor_client_init_at_most_once_witness :
    (runAcquires [(diskOracle, none)] none).inits ≤ 1 ∧
    (runAcquires [(diskOracle, none)] none).slot = some client1 :=
  ⟨(get_tor_client_init_at_most_once [(diskOracle, none)]).1,
   (get_tor_client_init_at_most_once [(diskOracle, none)]).2
     (Except.ok client1)
     (show Except.ok client1 ∈ (runAcquires [(diskOracle, none)] none).results
       from List.mem_singleton_self (Except.ok client1))
     client1 rfl⟩

/-- `launch_onion_service` returns exactly the pipeline's result, slot and
effects; only the `worker` field involves the spawned task. -/
theorem launch_eq_stages (L : LibOracle) (W : WorkerOracle) (n : String)
    (a : SocketAddr) (vp : Nat) (p : Option FsPath)
    (slot : Option TorClient) :
    (launch_onion_service L W n a vp p slot).result
        = (launch_stages L n a vp p slot).1.1 ∧
    (launch_onion_service L W n a vp p slot).slot
        = (launch_stages L n a vp p slot).1.2.1 ∧
    (launch_onion_service L W n a vp p slot).effects
        = (launch_stages L n a vp p slot).1.2.2 := by
  unfold launch_onion_service
  cases hs : launch_stages L n a vp p slot with
  | mk fst w =>
    cases fst with
    | mk r rest =>
      cases rest with
      | mk slot' effs =>
        cases w with
        | none => exact ⟨rfl, rfl, rfl⟩
        | some t =>
          cases t with
          | mk proxy t2 =>
            cases t2 with
            | mk nick stream => exact ⟨rfl, rfl, rfl⟩

/-- A successful `one_port` pattern is the single-port pattern for the
requested port. -/
theorem one_port_ok (port : Nat) (pat : ProxyPattern)
    (h : ProxyPattern.one_port port = Except.ok pat) : pat = ⟨port⟩ := by
  unfold ProxyPattern.one_port at h
  split at h
  · cases h
  · injection h with h
    exact h.symm

/-- C9: After a successful launch returns its handle, a failure of the
detached reverse-proxy worker is never surfaced to the caller through the
returned value — the result, slot and effects of the call do not depend on
the worker's behaviour at all — and the worker's result is consumed inside
the detached task by an unwrap that panics the task on error. -/
theorem worker_failure_not_surfaced (L : LibOracle) (W W' : WorkerOracle)
    (n : String) (a : SocketAddr) (vp : Nat) (p : Option FsPath)
    (slot : Option TorClient) (e : ProxyError) :
    (launch_onion_service L W n a vp p slot).result
        = (launch_onion_service L W' n a vp p slot).result ∧
    (launch_onion_service L W n a vp p slot).slot
        = (launch_onion_service L W' n a vp p slot).slot ∧
    (launch_onion_service L W n a vp p slot).effects
        = (launch_onion_service L W' n a vp p slot).effects ∧
    worker_task (Except.error e) = TaskOutcome.panicked := by
  obtain ⟨h1, h2, h3⟩ := launch_eq_stages L W n a vp p slot
  obtain ⟨h1', h2', h3'⟩ := launch_eq_stages L W' n a vp p slot
  exact ⟨h1.trans h1'.symm, h2.trans h2'.symm, h3.trans h3'.symm, rfl⟩

/-- C6: For every launch call, the reverse-proxy configuration built in
step 2 contains exactly one rule, whose pattern matches exactly the single
virtual port given as the `port` argument and whose action forwards with
default encapsulation to the Internet socket address given as the `addr`
argument; a failure to build this configuration is surfaced as the
`ProxyConfig` error. -/
theorem proxy_config_single_rule (L : LibOracle) (W : WorkerOracle)
    (addr : SocketAddr) (port : Nat) (n : String) (p : Option FsPath)
    (c : TorClient) :
    (∀ pr, build_proxy L addr port = Except.ok pr →
      pr.config.proxy_ports
          = [ProxyRule.new ⟨port⟩
              (ProxyAction.Forward Encapsulation.default
                (TargetAddr.Inet addr))] ∧
      ∀ q, (ProxyPattern.mk port).matchesPort q = true ↔ q = port) ∧
    (∀ e, build_proxy L addr port = Except.error e →
      (launch_onion_service L W n addr port p (some c)).result
          = Except.error (Error.ProxyConfig e)) := by
  constructor
  · intro pr hpr
    by_cases h0 : port = 0
    · subst h0
      simp [build_proxy, ProxyPattern.one_port] at hpr
    · simp only [build_proxy, ProxyPattern.one_port, if_neg h0] at hpr
      rcases hc : L.proxy_build_check
          [ProxyRule.new ⟨port⟩
            (ProxyAction.Forward Encapsulation.default
              (TargetAddr.Inet addr))] with _ | e1
      · rw [hc] at hpr
        simp only [Except.ok.injEq] at hpr
        refine ⟨?_, ?_⟩
        · rw [← hpr]
        · intro q
          simp [ProxyPattern.matchesPort]
      · rw [hc] at hpr
        simp at hpr
  · intro e he
    rw [(launch_eq_stages L W n addr port p (some c)).1]
    simp [launch_stages, get_tor_client, he]


/-- Closed instance of `proxy_config_single_rule`: the single rule built at
port 80, and the `ProxyConfig` error surfaced at port 0. -/
theorem proxy_config_single_rule_witness :
    (sampleProxy.config.proxy_ports
        = [ProxyRule.new ⟨80⟩
            (ProxyAction.Forward Encapsulation.default
              (TargetAddr.Inet addr0))] ∧
      ∀ q, (ProxyPattern.mk 80).matchesPort q = true ↔ q = 80) ∧
    (launch_onion_service diskOracle okWorker "testsvc" addr0 0 none
        (some client1)).result = Except.error (Error.ProxyConfig ⟨"port zero"⟩) :=
  ⟨(proxy_config_single_rule diskOracle okWorker addr0 80 "testsvc" none
      client1).1 sampleProxy rfl,
   (proxy_config_single_rule diskOracle okWorker addr0 0 "testsvc" none
      client1).2 ⟨"port zero"⟩ rfl⟩

/-- C10: the fallible steps of `launch_onion_service` run in source order,
so the first failing step determines the error kind: with both an invalid
virtual-port pattern and an invalid nickname the call returns the
`ProxyConfig` error, not the `Nickname` one; and an acquisition failure is
returned ahead of every later check. -/
theorem launch_error_order (L : LibOracle) (W : WorkerOracle) (c : TorClient)
    (n : String) (a : SocketAddr) (vp : Nat) (p : Option FsPath)
    (e : ProxyConfigError) (en : InvalidNickname) (err : Error)
    (effs : List Effect)
    (_hn : HsNickname.new n = Except.error en) :
    (build_proxy L a vp = Except.error e →
      (launch_onion_service L W n a vp p (some c)).result
        = Except.error (Error.ProxyConfig e)) ∧
    (init_tor_client L p = (effs, Except.error err) →
      (launch_onion_service L W n a vp p none).result = Except.error err) := by
  constructor
  · intro hbp
    rw [(launch_eq_stages L W n a vp p (some c)).1]
    simp [launch_stages, get_tor_client, hbp]
  · intro hi
    rw [(launch_eq_stages L W n a vp p none).1]
    simp [launch_stages, get_tor_client, hi]

/-- Closed instance of `launch_error_order`: with nickname `"has spaces"`
and virtual port 0 the call returns `ProxyConfig`, and with a failing
bootstrap it returns the bootstrap's error. -/
theorem launch_error_order_witness :
    (launch_onion_service diskOracle okWorker "has spaces" addr0 0 none
        (some client1)).result
      = Except.error (Error.ProxyConfig ⟨"port zero"⟩) ∧
    (launch_onion_service failOracle okWorker "has spaces" addr0 0 none
        none).result
      = Except.error (Error.ArtiClient ⟨"bootstrap failed"⟩) :=
  ⟨(launch_error_order diskOracle okWorker client1 "has spaces" addr0 0 none
      ⟨"port zero"⟩ ⟨"invalid nickname"⟩ (Error.ArtiClient ⟨""⟩) [] rfl).1 rfl,
   (launch_error_order failOracle okWorker client1 "has spaces" addr0 0 none
      ⟨"port zero"⟩ ⟨"invalid nickname"⟩
      (Error.ArtiClient ⟨"bootstrap failed"⟩) [] rfl).2 rfl⟩

/-- C2 counterexample: with the singleton still uninitialized and a
bootstrap that succeeds after creating files under the state directory,
`launchOnionService("has spaces", 127.0.0.1:1, 80, None)` does return the
`Nickname` error, yet the call has written to disk — files were created
under the state directory that did not exist before, because the client is
acquired (and bootstrapped) before the nickname is validated. -/
theorem launch_invalid_nickname_disk_counterexample :
    (launch_onion_service diskOracle okWorker "has spaces" addr0 80 none
        none).result
      = Except.error (Error.InvalidNickname ⟨"invalid nickname"⟩) ∧
    (launch_onion_service diskOracle okWorker "has spaces" addr0 80 none
        none).effects = [Effect.diskWrite ["state", "keys"]] :=
  ⟨rfl, rfl⟩

/-- C2 (amended): provided the singleton is already initialized and the
proxy-configuration step succeeds, a launch call whose nickname is empty
or syntactically invalid returns the `Nickname` error and performs no side
effects — no socket is opened and nothing is written to disk, and no
worker is spawned; on a first call, acquiring the singleton runs the
initializer (with its disk and socket activity) before the nickname is
examined. -/
theorem launch_invalid_nickname_after_init (L : LibOracle) (W : WorkerOracle)
    (c : TorClient) (n : String) (a : SocketAddr) (vp : Nat)
    (p : Option FsPath) (en : InvalidNickname)
    (pr : OnionServiceReverseProxy)
    (hn : HsNickname.new n = Except.error en)
    (hp : build_proxy L a vp = Except.ok pr) :
    launch_onion_service L W n a vp p (some c)
      = ⟨Except.error (Error.InvalidNickname en), some c, [], none⟩ := by
  unfold launch_onion_service
  have hs : launch_stages L n a vp p (some c)
      = ((Except.error (Error.InvalidNickname en), some c, []), none) := by
    simp [launch_stages, get_tor_client, hp, hn]
  rw [hs]

/-- Closed instance of `launch_invalid_nickname_after_init` with the
already-initialized slot. -/
theorem launch_invalid_nickname_after_init_witness :
    launch_onion_service diskOracle okWorker "has spaces" addr0 80 none
        (some client1)
      = ⟨Except.error (Error.InvalidNickname ⟨"invalid nickname"⟩),
          some client1, [], none⟩ :=
  launch_invalid_nickname_after_init diskOracle okWorker client1 "has spaces"
    addr0 80 none ⟨"invalid nickname"⟩ sampleProxy rfl rfl
